import Mathlib

/-!
Shallow embedding of the RADIUS accounting and usage-metering engine of
`freradius-captive-portal/backend/app` (router `api/v1/accounting.py`,
helpers `api/v1/accounting_helpers.py`, service
`services/accounting_service.py`, model `models/accounting.py`).

Conventions of the embedding:
* timestamps are integer seconds (`Int`); `datetime.now()` / `datetime.utcnow()`
  become an explicit `now : Int` parameter;
* the SQLAlchemy store of `RadAcct` rows becomes a `List RadAcct` in insertion
  order; `query(...).first()` becomes `List.find?`; in-place row mutation plus
  `commit()` becomes a pure list update; `rollback()` followed by `raise`
  becomes returning `Except.error` with the original list kept by the caller;
* Python exceptions are `Except PyErr`; the SQL `UNIQUE` constraint on
  `radacct.acctuniqueid` (models/accounting.py) makes a colliding commit raise,
  embedded as `PyErr.integrityError`;
* numeric request fields are `Option String` as in the Pydantic model
  `RadiusAccountingRequest`; Python `int(x or 0)` is `intOr0`;
* float-derived presentation fields (`*_mb`, `*_gb`, rounded) are not part of
  the embedding; all claims are about the integer octet/second/count fields.
-/

deriving instance DecidableEq for Except

/-- Python exception kinds raised by the embedded code paths. -/
inductive PyErr : Type where
  | valueError : PyErr
  | integrityError : PyErr
  | nameError : PyErr
  deriving Repr, DecidableEq

/-- A row of the `radacct` table (model `RadAcct`, models/accounting.py).
Only the columns the accounting module reads or writes are embedded; the
remaining columns are never touched by the code under study. -/
structure RadAcct : Type where
  radacctid : Nat
  acctsessionid : String
  acctuniqueid : String
  username : Option String
  nasipaddress : String
  acctstarttime : Option Int
  acctupdatetime : Option Int
  acctstoptime : Option Int
  acctsessiontime : Option Int
  acctinputoctets : Option Int
  acctoutputoctets : Option Int
  calledstationid : Option String
  callingstationid : Option String
  acctterminatecause : Option String
  framedipaddress : Option String
  deriving Repr, DecidableEq

/-- The inbound event payload (Pydantic model `RadiusAccountingRequest`,
api/v1/accounting.py).  Numeric fields arrive as optional strings with
default `"0"`, exactly as in the source. -/
structure RadiusAccountingRequest : Type where
  username : String
  session_id : String
  status_type : String
  input_octets : Option String := some "0"
  output_octets : Option String := some "0"
  input_packets : Option String := some "0"
  output_packets : Option String := some "0"
  session_time : Option String := some "0"
  nas_ip_address : Option String := none
  nas_identifier : Option String := none
  framed_ip_address : Option String := none
  calling_station_id : Option String := none
  called_station_id : Option String := none
  terminate_cause : Option String := none
  deriving Repr, DecidableEq

/-- Python `str.strip()`: drop whitespace from both ends, written on the
character list so that it evaluates inside the kernel. -/
def pyStrip (s : String) : String :=
  ⟨((s.toList.dropWhile Char.isWhitespace).reverse.dropWhile
      Char.isWhitespace).reverse⟩

/-- Python `int(s)` on a string: optional surrounding whitespace, optional
sign, then decimal digits; anything else raises `ValueError` (`none` here).
(Digit-group underscores accepted by CPython are not used anywhere in the
repository and are not modelled.) -/
def pyDigits (cs : List Char) : Option Nat :=
  if cs ≠ [] ∧ cs.all Char.isDigit then
    some (cs.foldl (fun a c => a * 10 + (c.toNat - 48)) 0)
  else none

/-- Python `int(s)` with sign handling; see `pyDigits`. -/
def pyInt (s : String) : Option Int :=
  match (pyStrip s).toList with
  | '-' :: rest => (pyDigits rest).map (fun n => -(n : Int))
  | '+' :: rest => (pyDigits rest).map (fun n => (n : Int))
  | cs => (pyDigits cs).map (fun n => (n : Int))

/-- Python `int(x or 0)` for `x : Optional[str]`: `None` and `""` are falsy
and give `0`; a non-empty string is parsed and raises `ValueError` when
unparseable. -/
def intOr0 (x : Option String) : Except PyErr Int :=
  match x with
  | none => Except.ok 0
  | some s =>
      if s = "" then Except.ok 0
      else
        match pyInt s with
        | some n => Except.ok n
        | none => Except.error PyErr.valueError

/-- Python `x or d` for `x : Optional[str]` with a string default `d`
(used for `nas_ip_address or "127.0.0.1"`). -/
def strOr (x : Option String) (d : String) : String :=
  match x with
  | none => d
  | some s => if s = "" then d else s

/-- Python `v if v and v.strip() else None` applied to an optional string
field, as in `_handle_accounting_start`'s field cleanup. -/
def stripToNone (x : Option String) : Option String :=
  match x with
  | none => none
  | some s => if s = "" then none else if pyStrip s = "" then none else some s

/-- `''` → `None` normalization of `clean_request_data` (api/v1/accounting.py);
applied only to the five fields listed there. -/
def blankToNone (x : Option String) : Option String :=
  match x with
  | some "" => none
  | y => y

/-- `clean_request_data` (api/v1/accounting.py): empty strings become `None`
for `framed_ip_address`, `calling_station_id`, `called_station_id`,
`nas_identifier`, `terminate_cause`; every other field passes through. -/
def clean_request_data (r : RadiusAccountingRequest) : RadiusAccountingRequest :=
  { r with
    framed_ip_address := blankToNone r.framed_ip_address
    calling_station_id := blankToNone r.calling_station_id
    called_station_id := blankToNone r.called_station_id
    nas_identifier := blankToNone r.nas_identifier
    terminate_cause := blankToNone r.terminate_cause }

/-- The lookup predicate shared by all three handlers:
`username == request.username AND acctsessionid == request.session_id AND
acctstoptime IS NULL`.  SQL equality against a non-null literal never
matches a `NULL` column, hence `r.username = some u`. -/
def openMatch (u sid : String) (r : RadAcct) : Bool :=
  decide (r.username = some u ∧ r.acctsessionid = sid ∧ r.acctstoptime = none)

/-- The generated `acctuniqueid`:
`f"{request.session_id[:16]}-{int(datetime.now().timestamp())}"`. -/
def genUid (sid : String) (now : Int) : String :=
  sid.take 16 ++ "-" ++ toString now

/-- Replace the first element satisfying `p` (the row returned by
`query(...).first()` and then mutated in place). -/
def updateFirst (p : α → Bool) (f : α → α) : List α → List α
  | [] => []
  | a :: t => if p a then f a :: t else a :: updateFirst p f t

/-- The row inserted by `_handle_accounting_start` once the duplicate check
has passed and both counters parsed to `vin`/`vout`.  `radacctid` is the
store-assigned primary key (insertion index). -/
def mkStartRow (req : RadiusAccountingRequest) (nextId : Nat) (now vin vout : Int) :
    RadAcct :=
  { radacctid := nextId
    acctsessionid := req.session_id
    acctuniqueid := genUid req.session_id now
    username := some req.username
    nasipaddress := strOr req.nas_ip_address "127.0.0.1"
    acctstarttime := some now
    acctupdatetime := none
    acctstoptime := none
    acctsessiontime := none
    acctinputoctets := some vin
    acctoutputoctets := some vout
    calledstationid := stripToNone req.called_station_id
    callingstationid := stripToNone req.calling_station_id
    acctterminatecause := stripToNone req.terminate_cause
    framedipaddress := stripToNone req.framed_ip_address }

/-- `_handle_accounting_start` (accounting_helpers.py): duplicate open rows
are a logged no-op; otherwise the counters are parsed (constructor-argument
order: input before output), the `acctuniqueid` is generated, and the row is
committed — a commit whose `acctuniqueid` collides with an existing row
violates the `unique=True` constraint of models/accounting.py and raises,
rolling the transaction back. -/
def handleStart (req : RadiusAccountingRequest) (db : List RadAcct) (now : Int) :
    Except PyErr (List RadAcct) :=
  if (db.find? (openMatch req.username req.session_id)).isSome then
    Except.ok db
  else
    match intOr0 req.input_octets with
    | Except.error e => Except.error e
    | Except.ok vin =>
        match intOr0 req.output_octets with
        | Except.error e => Except.error e
        | Except.ok vout =>
            if db.any (fun r => decide (r.acctuniqueid = genUid req.session_id now)) then
              Except.error PyErr.integrityError
            else
              Except.ok (db ++ [mkStartRow req db.length now vin vout])

/-- `_handle_accounting_stop` (accounting_helpers.py): orphan stops are a
logged no-op; otherwise `acctstoptime := now` and the reported
`session_time` / counters overwrite the row (assignment order:
session_time, input, output), `acctterminatecause` is taken verbatim from
the request.  A parse failure rolls back, leaving the store unchanged. -/
def handleStop (req : RadiusAccountingRequest) (db : List RadAcct) (now : Int) :
    Except PyErr (List RadAcct) :=
  match db.find? (openMatch req.username req.session_id) with
  | none => Except.ok db
  | some _ =>
      match intOr0 req.session_time with
      | Except.error e => Except.error e
      | Except.ok vtime =>
          match intOr0 req.input_octets with
          | Except.error e => Except.error e
          | Except.ok vin =>
              match intOr0 req.output_octets with
              | Except.error e => Except.error e
              | Except.ok vout =>
                  Except.ok (updateFirst (openMatch req.username req.session_id)
                    (fun r => { r with
                      acctstoptime := some now
                      acctsessiontime := some vtime
                      acctinputoctets := some vin
                      acctoutputoctets := some vout
                      acctterminatecause := req.terminate_cause }) db)

/-- `_handle_accounting_update` (accounting_helpers.py): orphan updates are a
logged no-op; otherwise `acctupdatetime := now` and the counters and
`session_time` overwrite the row (assignment order: input, output,
session_time). -/
def handleUpdate (req : RadiusAccountingRequest) (db : List RadAcct) (now : Int) :
    Except PyErr (List RadAcct) :=
  match db.find? (openMatch req.username req.session_id) with
  | none => Except.ok db
  | some _ =>
      match intOr0 req.input_octets with
      | Except.error e => Except.error e
      | Except.ok vin =>
          match intOr0 req.output_octets with
          | Except.error e => Except.error e
          | Except.ok vout =>
              match intOr0 req.session_time with
              | Except.error e => Except.error e
              | Except.ok vtime =>
                  Except.ok (updateFirst (openMatch req.username req.session_id)
                    (fun r => { r with
                      acctupdatetime := some now
                      acctinputoctets := some vin
                      acctoutputoctets := some vout
                      acctsessiontime := some vtime }) db)

/-- The `POST /accounting/radius` endpoint `radius_accounting`
(api/v1/accounting.py): cleans the request, dispatches on `status_type`
(`Post-Auth` and unknown types are acknowledged without touching the store),
catches every handler exception after its rollback and reports
`{"status": "error"}`.  Result: the store after the call, and `true` for a
`status: success` acknowledgment. -/
def radius_accounting (req : RadiusAccountingRequest) (db : List RadAcct)
    (now : Int) : List RadAcct × Bool :=
  let cr := clean_request_data req
  if cr.status_type = "Start" then
    match handleStart cr db now with
    | Except.ok db' => (db', true)
    | Except.error _ => (db, false)
  else if cr.status_type = "Stop" then
    match handleStop cr db now with
    | Except.ok db' => (db', true)
    | Except.error _ => (db, false)
  else if cr.status_type = "Interim-Update" then
    match handleUpdate cr db now with
    | Except.ok db' => (db', true)
    | Except.error _ => (db, false)
  else
    (db, true)

/-- Applying a sequence of timed accounting events through the endpoint. -/
def runEvents (evs : List (RadiusAccountingRequest × Int)) (db : List RadAcct) :
    List RadAcct :=
  evs.foldl (fun d e => (radius_accounting e.1 d e.2).1) db

/-- Property `RadAcct.duration_seconds` (models/accounting.py): Python
truthiness — `if self.acctsessiontime:` is taken only when the column is
non-null AND non-zero; otherwise the duration is derived from the
timestamps, and is `0` when `acctstarttime` is null. -/
def duration_seconds (now : Int) (r : RadAcct) : Int :=
  match r.acctsessiontime with
  | some t =>
      if t ≠ 0 then t
      else
        match r.acctstarttime with
        | some st =>
            match r.acctstoptime with
            | some sp => sp - st
            | none => now - st
        | none => 0
  | none =>
      match r.acctstarttime with
      | some st =>
          match r.acctstoptime with
          | some sp => sp - st
          | none => now - st
      | none => 0

/-- SQL `acctstarttime >= start_date`: a `NULL` start time never matches. -/
def inPeriod (cutoff : Int) (r : RadAcct) : Bool :=
  match r.acctstarttime with
  | some t => decide (cutoff ≤ t)
  | none => false

/-- Integer part of `AccountingService.get_user_bandwidth_usage`
(accounting_service.py): the rounded `*_mb`/`*_gb` floats derived from these
integers are presentation only and not embedded. -/
structure UserUsage : Type where
  download_octets : Int
  upload_octets : Int
  total_octets : Int
  total_time_seconds : Int
  session_count : Nat
  deriving Repr, DecidableEq

/-- `AccountingService.get_user_bandwidth_usage` (accounting_service.py):
filters `username == username AND acctstarttime >= utcnow() - period_days`,
then sums `acctinputoctets or 0`, `acctoutputoctets or 0`, the
`duration_seconds` property, and counts the rows. -/
def get_user_bandwidth_usage (db : List RadAcct) (username : String)
    (period_days : Int) (now : Int) : UserUsage :=
  let cutoff := now - period_days * 86400
  let sessions := db.filter
    (fun r => decide (r.username = some username) && inPeriod cutoff r)
  let download_total := (sessions.map (fun s => s.acctinputoctets.getD 0)).sum
  let upload_total := (sessions.map (fun s => s.acctoutputoctets.getD 0)).sum
  { download_octets := download_total
    upload_octets := upload_total
    total_octets := download_total + upload_total
    total_time_seconds := (sessions.map (duration_seconds now)).sum
    session_count := sessions.length }

/-- Integer part of `AccountingService.get_global_bandwidth_usage`. -/
structure GlobalUsage : Type where
  download_octets : Int
  upload_octets : Int
  total_octets : Int
  session_count : Nat
  active_users_count : Nat
  total_users_count : Nat
  deriving Repr, DecidableEq

/-- `AccountingService.get_global_bandwidth_usage` (accounting_service.py):
one aggregate over rows with `acctstarttime >= utcnow() - period_days`
(SQL `SUM` skips `NULL` counters, and a `NULL` total is coerced by `or 0`,
which coincides with summing `getD 0`), plus `COUNT(DISTINCT username)` over
open rows (SQL `COUNT(DISTINCT col)` ignores `NULL`s) and the distinct
username count of the `radcheck` table, taken here as a username list. -/
def get_global_bandwidth_usage (db : List RadAcct) (radcheckUsers : List String)
    (period_days : Int) (now : Int) : GlobalUsage :=
  let cutoff := now - period_days * 86400
  let rows := db.filter (inPeriod cutoff)
  let download_total := (rows.map (fun s => s.acctinputoctets.getD 0)).sum
  let upload_total := (rows.map (fun s => s.acctoutputoctets.getD 0)).sum
  { download_octets := download_total
    upload_octets := upload_total
    total_octets := download_total + upload_total
    session_count := rows.length
    active_users_count :=
      (((db.filter (fun r => decide (r.acctstoptime = none))).filterMap
        (fun r => r.username)).dedup).length
    total_users_count := radcheckUsers.dedup.length }

/-- The distinct usernames having a session in the period: the usernames of
the rows `get_global_bandwidth_usage` aggregates, `NULL`s dropped. -/
def distinctUsersInPeriod (db : List RadAcct) (period_days : Int) (now : Int) :
    List String :=
  ((db.filter (inPeriod (now - period_days * 86400))).filterMap
    (fun r => r.username)).dedup

/-- One day bucket of `AccountingService.get_daily_bandwidth_usage`. -/
structure DailyUsage : Type where
  dayStart : Int
  download_octets : Int
  upload_octets : Int
  deriving Repr, DecidableEq

/-- `AccountingService.get_daily_bandwidth_usage` (accounting_service.py).
The module imports exactly `func, and_, desc` from sqlalchemy
(line 2: `from sqlalchemy import func, and_, desc`), but the filter built
inside the day loop applies `or_(...)`, a name bound nowhere in the module;
by Python name resolution the first loop iteration therefore raises
`NameError: name 'or_' is not defined` before any query runs.  With
`days <= 0` the `range(days)` loop body never executes and the empty list
is returned. -/
def get_daily_bandwidth_usage (db : List RadAcct) (days : Int) (now : Int) :
    Except PyErr (List DailyUsage) :=
  if days ≤ 0 then Except.ok []
  else Except.error PyErr.nameError

/-- Two rows violate the duplicate-start invariant when both are open and
carry the same non-null `(username, acctsessionid)` correlation key. -/
def conflict (a b : RadAcct) : Prop :=
  a.acctstoptime = none ∧ b.acctstoptime = none ∧
    a.acctsessionid = b.acctsessionid ∧ a.username = b.username ∧ a.username ≠ none

instance (a b : RadAcct) : Decidable (conflict a b) := by
  unfold conflict; infer_instance

/-- The store invariant of §3 of the design: no two rows are simultaneously
open for the same `(username, session_id)` pair. -/
def AtMostOneOpen (db : List RadAcct) : Prop :=
  db.Pairwise (fun a b => ¬ conflict a b)

instance (db : List RadAcct) : Decidable (AtMostOneOpen db) := by
  unfold AtMostOneOpen; infer_instance

/-- A concrete open-session row (alice, session S1) used by witnesses. -/
def rowS1 : RadAcct :=
  { radacctid := 0, acctsessionid := "S1", acctuniqueid := "S1-100",
    username := some "alice", nasipaddress := "127.0.0.1",
    acctstarttime := some 100, acctupdatetime := none, acctstoptime := none,
    acctsessiontime := none, acctinputoctets := some 0, acctoutputoctets := some 0,
    calledstationid := none, callingstationid := none, acctterminatecause := none,
    framedipaddress := none }

/-- A concrete Start event for (alice, S1) used by witnesses. -/
def startS1 : RadiusAccountingRequest :=
  { username := "alice", session_id := "S1", status_type := "Start" }

/-- The `unique=True` invariant of `radacct.acctuniqueid`. -/
def UidsDistinct (db : List RadAcct) : Prop :=
  (db.map (fun r => r.acctuniqueid)).Nodup

instance (db : List RadAcct) : Decidable (UidsDistinct db) := by
  unfold UidsDistinct; infer_instance

/-- A concrete Stop event for (alice, S1) used by witnesses. -/
def stopS1 : RadiusAccountingRequest :=
  { username := "alice", session_id := "S1", status_type := "Stop",
    input_octets := some "5000", output_octets := some "9000",
    session_time := some "120", terminate_cause := some "User-Request" }

/-- The in-place mutation applied to the open row by
`_handle_accounting_update`. -/
def applyUpdateRow (now vin vout vtime : Int) (r : RadAcct) : RadAcct :=
  { r with
    acctupdatetime := some now
    acctinputoctets := some vin
    acctoutputoctets := some vout
    acctsessiontime := some vtime }

/-- The in-place mutation applied to the open row by
`_handle_accounting_stop`. -/
def applyStopRow (cause : Option String) (now vtime vin vout : Int)
    (r : RadAcct) : RadAcct :=
  { r with
    acctstoptime := some now
    acctsessiontime := some vtime
    acctinputoctets := some vin
    acctoutputoctets := some vout
    acctterminatecause := cause }

/-- A row holding non-zero counters, used to witness the overwrite. -/
def rowS1Counters : RadAcct :=
  { rowS1 with acctinputoctets := some 1000, acctoutputoctets := some 2000 }

/-- An Interim-Update for (alice, S1) with absent counter fields. -/
def updS1NoCounters : RadiusAccountingRequest :=
  { username := "alice", session_id := "S1", status_type := "Interim-Update",
    input_octets := none, output_octets := none, session_time := none }

/-- A closed row whose Stop reported `session_time = 0`: the stored field is
set, yet the exposed duration falls back to `stop - start`. -/
def zeroTimeRow : RadAcct :=
  { rowS1 with
    acctsessiontime := some 0
    acctstarttime := some 0
    acctstoptime := some 120 }

/-- An open row started long before any reasonable window, with non-zero
counters. -/
def staleOpenRow : RadAcct :=
  { rowS1 with
    acctstarttime := some 0
    acctinputoctets := some 100
    acctoutputoctets := some 200 }

/-- A fresh in-window row for alice with small counters. -/
def freshRow : RadAcct :=
  { rowS1 with
    acctstarttime := some 3000000
    acctinputoctets := some 10
    acctoutputoctets := some 20 }

/-- A Start whose `input_octets` is a non-numeric string. -/
def badStartS1 : RadiusAccountingRequest :=
  { username := "alice", session_id := "S1", status_type := "Start",
    input_octets := some "abc" }

/-- A Start for (alice, S1) with absent counters. -/
def startS1None : RadiusAccountingRequest :=
  { username := "alice", session_id := "S1", status_type := "Start",
    input_octets := none, output_octets := none }

/-- A concrete Interim-Update for (alice, S1). -/
def updS1 : RadiusAccountingRequest :=
  { username := "alice", session_id := "S1", status_type := "Interim-Update",
    input_octets := some "1000", output_octets := some "2000",
    session_time := some "60" }

/-- A row with `username = NULL` inside the period (anonymous/failed
attempt), carrying 5 + 7 octets. -/
def nullUserRow : RadAcct :=
  { rowS1 with
    username := none
    acctstarttime := some 3000000
    acctinputoctets := some 5
    acctoutputoctets := some 7 }

/-- A numeric request field on which Python `int(x or 0)` raises
`ValueError`: present, non-empty (hence truthy) and unparseable. -/
def unparseableNum (x : Option String) : Prop :=
  ∃ s, x = some s ∧ s ≠ "" ∧ pyInt s = none

/-- A Stop for (alice, S1) whose `session_time` is a non-numeric string. -/
def badStopS1 : RadiusAccountingRequest :=
  { username := "alice", session_id := "S1", status_type := "Stop",
    session_time := some "xyz" }

/-- An Interim-Update for (alice, S1) whose `input_octets` is a non-numeric
string. -/
def badUpdS1 : RadiusAccountingRequest :=
  { username := "alice", session_id := "S1", status_type := "Interim-Update",
    input_octets := some "abc" }

/-! ### Basic lemmas about the embedding -/

theorem clean_request_data_status (r : RadiusAccountingRequest) :
    (clean_request_data r).status_type = r.status_type := rfl

theorem clean_request_data_username (r : RadiusAccountingRequest) :
    (clean_request_data r).username = r.username := rfl

theorem clean_request_data_session_id (r : RadiusAccountingRequest) :
    (clean_request_data r).session_id = r.session_id := rfl

theorem clean_request_data_input_octets (r : RadiusAccountingRequest) :
    (clean_request_data r).input_octets = r.input_octets := rfl

theorem clean_request_data_output_octets (r : RadiusAccountingRequest) :
    (clean_request_data r).output_octets = r.output_octets := rfl

theorem clean_request_data_session_time (r : RadiusAccountingRequest) :
    (clean_request_data r).session_time = r.session_time := rfl

theorem updateFirst_append_of_none {p : α → Bool} {f : α → α} {l₁ : List α}
    (l₂ : List α) (h : ∀ a ∈ l₁, p a = false) :
    updateFirst p f (l₁ ++ l₂) = l₁ ++ updateFirst p f l₂ := by
  induction l₁ with
  | nil => simp
  | cons a t ih =>
      have ha : p a = false := h a (List.mem_cons_self a t)
      have ih' := ih (fun x hx => h x (List.mem_cons_of_mem a hx))
      simp only [List.cons_append, updateFirst, ha, Bool.false_eq_true, if_false,
        List.append_eq]
      rw [ih']

theorem updateFirst_cons_of_pos {p : α → Bool} {f : α → α} {a : α}
    (t : List α) (h : p a = true) :
    updateFirst p f (a :: t) = f a :: t := by
  simp [updateFirst, h]

theorem map_updateFirst {p : α → Bool} {f : α → α} {g : α → β}
    (l : List α) (h : ∀ a, g (f a) = g a) :
    (updateFirst p f l).map g = l.map g := by
  induction l with
  | nil => rfl
  | cons a t ih =>
      by_cases hp : p a = true
      · simp [updateFirst, hp, h]
      · simp only [Bool.not_eq_true] at hp
        simp [updateFirst, hp, ih]

theorem find?_append_of_none {p : α → Bool} {l₁ l₂ : List α}
    (h : l₁.find? p = none) : (l₁ ++ l₂).find? p = l₂.find? p := by
  rw [List.find?_append, h, Option.none_or]

theorem radius_accounting_start_eq (req : RadiusAccountingRequest)
    (db : List RadAcct) (now : Int) (hs : req.status_type = "Start") :
    radius_accounting req db now =
      match handleStart (clean_request_data req) db now with
      | Except.ok db' => (db', true)
      | Except.error _ => (db, false) := by
  simp [radius_accounting, clean_request_data_status, hs]

theorem radius_accounting_stop_eq (req : RadiusAccountingRequest)
    (db : List RadAcct) (now : Int) (hs : req.status_type = "Stop") :
    radius_accounting req db now =
      match handleStop (clean_request_data req) db now with
      | Except.ok db' => (db', true)
      | Except.error _ => (db, false) := by
  simp [radius_accounting, clean_request_data_status, hs]

theorem radius_accounting_update_eq (req : RadiusAccountingRequest)
    (db : List RadAcct) (now : Int) (hs : req.status_type = "Interim-Update") :
    radius_accounting req db now =
      match handleUpdate (clean_request_data req) db now with
      | Except.ok db' => (db', true)
      | Except.error _ => (db, false) := by
  simp [radius_accounting, clean_request_data_status, hs]

/-! ### C1: at most one open record per (username, session_id) pair -/

theorem openMatch_of_conflict_mkStartRow {a : RadAcct}
    {req : RadiusAccountingRequest} {nextId : Nat} {now vin vout : Int}
    (h : conflict a (mkStartRow req nextId now vin vout)) :
    openMatch req.username req.session_id a = true := by
  obtain ⟨ha, _, hsid, huser, _⟩ := h
  simp only [mkStartRow] at hsid huser
  simp [openMatch, ha, hsid, huser]

theorem handleStart_atMostOneOpen {req : RadiusAccountingRequest}
    {db db' : List RadAcct} {now : Int} (h : AtMostOneOpen db)
    (hok : handleStart req db now = Except.ok db') : AtMostOneOpen db' := by
  unfold handleStart at hok
  split at hok
  · cases hok; exact h
  · rename_i hdup
    split at hok
    · cases hok
    · rename_i vin hin
      split at hok
      · cases hok
      · rename_i vout hout
        split at hok
        · cases hok
        · cases hok
          have hnone : db.find? (openMatch req.username req.session_id) = none := by
            cases hfind : db.find? (openMatch req.username req.session_id) with
            | none => rfl
            | some r => rw [hfind] at hdup; simp at hdup
          have hall := List.find?_eq_none.mp hnone
          refine (List.pairwise_append).mpr ⟨h, List.pairwise_singleton _ _, ?_⟩
          intro a ha b hb hc
          have hbeq : b = mkStartRow req db.length now vin vout := by
            simpa using hb
          subst hbeq
          exact hall a ha (by simp [openMatch_of_conflict_mkStartRow hc])

theorem start_step_atMostOneOpen {req : RadiusAccountingRequest}
    {db : List RadAcct} {now : Int} (h : AtMostOneOpen db)
    (hs : req.status_type = "Start") :
    AtMostOneOpen (radius_accounting req db now).1 := by
  rw [radius_accounting_start_eq req db now hs]
  cases hok : handleStart (clean_request_data req) db now with
  | ok db' => exact handleStart_atMostOneOpen h hok
  | error e => exact h

theorem runEvents_starts_atMostOneOpen {evs : List (RadiusAccountingRequest × Int)}
    {db : List RadAcct} (h : AtMostOneOpen db)
    (hevs : ∀ e ∈ evs, e.1.status_type = "Start") :
    AtMostOneOpen (runEvents evs db) := by
  induction evs generalizing db with
  | nil => exact h
  | cons e t ih =>
      exact ih (start_step_atMostOneOpen h (hevs e (List.mem_cons_self e t)))
        (fun x hx => hevs x (List.mem_cons_of_mem e hx))

theorem start_duplicate_noop {req : RadiusAccountingRequest} {db : List RadAcct}
    {now : Int} (hs : req.status_type = "Start")
    (hopen : (db.find? (openMatch req.username req.session_id)).isSome = true) :
    radius_accounting req db now = (db, true) := by
  rw [radius_accounting_start_eq req db now hs]
  unfold handleStart
  rw [clean_request_data_username, clean_request_data_session_id]
  rw [if_pos hopen]

/-- C1: starting from any store satisfying the one-open-row-per-pair
invariant, any sequence of Start events (duplicates and interleavings
included) preserves the invariant; and a Start arriving while an open record
exists for its `(username, session_id)` pair returns a success acknowledgment
with the store exactly unchanged (the duplicate is logged, not inserted). -/
theorem c1_at_most_one_open_per_pair
    (db0 : List RadAcct) (evs : List (RadiusAccountingRequest × Int))
    (req : RadiusAccountingRequest) (now : Int)
    (h0 : AtMostOneOpen db0)
    (hevs : ∀ e ∈ evs, e.1.status_type = "Start")
    (hreq : req.status_type = "Start")
    (hopen : (db0.find? (openMatch req.username req.session_id)).isSome = true) :
    AtMostOneOpen (runEvents evs db0) ∧ radius_accounting req db0 now = (db0, true) :=
  ⟨runEvents_starts_atMostOneOpen h0 hevs, start_duplicate_noop hreq hopen⟩

/-- Witness for C1 at a concrete store and a concrete duplicate Start. -/
theorem c1_witness :
    AtMostOneOpen (runEvents [(startS1, 200)] [rowS1]) ∧
      radius_accounting startS1 [rowS1] 200 = ([rowS1], true) :=
  c1_at_most_one_open_per_pair [rowS1] [(startS1, 200)] startS1 200
    (by decide) (by decide) (by decide) (by decide)

/-! ### C8: acctuniqueid uniqueness and its derivation -/

theorem radius_accounting_other_eq (req : RadiusAccountingRequest)
    (db : List RadAcct) (now : Int) (h1 : req.status_type ≠ "Start")
    (h2 : req.status_type ≠ "Stop") (h3 : req.status_type ≠ "Interim-Update") :
    radius_accounting req db now = (db, true) := by
  simp [radius_accounting, clean_request_data_status, h1, h2, h3]

theorem handleStart_uidsDistinct {req : RadiusAccountingRequest}
    {db db' : List RadAcct} {now : Int} (h : UidsDistinct db)
    (hok : handleStart req db now = Except.ok db') : UidsDistinct db' := by
  unfold handleStart at hok
  split at hok
  · cases hok; exact h
  · split at hok
    · cases hok
    · split at hok
      · cases hok
      · split at hok
        · cases hok
        · rename_i huid
          cases hok
          have hall : ∀ r ∈ db, ¬ r.acctuniqueid = genUid req.session_id now := by
            intro r hrdb heq
            exact huid (List.any_eq_true.mpr ⟨r, hrdb, by simp [heq]⟩)
          unfold UidsDistinct at h ⊢
          rw [List.map_append, List.nodup_append]
          refine ⟨h, by simp, ?_⟩
          intro x hx hx'
          obtain ⟨r, hrdb, hruid⟩ := List.mem_map.mp hx
          have : x = genUid req.session_id now := by
            simpa [mkStartRow] using hx'
          exact hall r hrdb (hruid.trans this)

theorem handleStop_map_uid {req : RadiusAccountingRequest}
    {db db' : List RadAcct} {now : Int}
    (hok : handleStop req db now = Except.ok db') :
    db'.map (fun r => r.acctuniqueid) = db.map (fun r => r.acctuniqueid) := by
  unfold handleStop at hok
  split at hok
  · cases hok; rfl
  · split at hok
    · cases hok
    · split at hok
      · cases hok
      · split at hok
        · cases hok
        · cases hok
          exact map_updateFirst db (fun a => rfl)

theorem handleUpdate_map_uid {req : RadiusAccountingRequest}
    {db db' : List RadAcct} {now : Int}
    (hok : handleUpdate req db now = Except.ok db') :
    db'.map (fun r => r.acctuniqueid) = db.map (fun r => r.acctuniqueid) := by
  unfold handleUpdate at hok
  split at hok
  · cases hok; rfl
  · split at hok
    · cases hok
    · split at hok
      · cases hok
      · split at hok
        · cases hok
        · cases hok
          exact map_updateFirst db (fun a => rfl)

theorem step_uidsDistinct {req : RadiusAccountingRequest} {db : List RadAcct}
    {now : Int} (h : UidsDistinct db) :
    UidsDistinct (radius_accounting req db now).1 := by
  by_cases hS : req.status_type = "Start"
  · rw [radius_accounting_start_eq req db now hS]
    cases hok : handleStart (clean_request_data req) db now with
    | ok db' => exact handleStart_uidsDistinct h hok
    | error e => exact h
  · by_cases hT : req.status_type = "Stop"
    · rw [radius_accounting_stop_eq req db now hT]
      cases hok : handleStop (clean_request_data req) db now with
      | ok db' =>
          unfold UidsDistinct at h ⊢
          rw [handleStop_map_uid hok]
          exact h
      | error e => exact h
    · by_cases hU : req.status_type = "Interim-Update"
      · rw [radius_accounting_update_eq req db now hU]
        cases hok : handleUpdate (clean_request_data req) db now with
        | ok db' =>
            unfold UidsDistinct at h ⊢
            rw [handleUpdate_map_uid hok]
            exact h
        | error e => exact h
      · rw [radius_accounting_other_eq req db now hS hT hU]
        exact h

theorem runEvents_uidsDistinct {evs : List (RadiusAccountingRequest × Int)}
    {db : List RadAcct} (h : UidsDistinct db) :
    UidsDistinct (runEvents evs db) := by
  induction evs generalizing db with
  | nil => exact h
  | cons e t ih => exact ih (step_uidsDistinct h)

theorem handleStart_inserted_uid {req : RadiusAccountingRequest}
    {db db' : List RadAcct} {now : Int} {r : RadAcct}
    (hok : handleStart req db now = Except.ok db') (hr : r ∈ db') :
    r ∈ db ∨ r.acctuniqueid = genUid req.session_id now := by
  unfold handleStart at hok
  split at hok
  · cases hok; exact Or.inl hr
  · split at hok
    · cases hok
    · rename_i vin hin
      split at hok
      · cases hok
      · rename_i vout hout
        split at hok
        · cases hok
        · cases hok
          rcases List.mem_append.mp hr with hl | hr1
          · exact Or.inl hl
          · right
            have hre : r = mkStartRow req db.length now vin vout := by
              simpa using hr1
            rw [hre]
            rfl

/-- C8: every store whose `acctuniqueid`s are pairwise distinct keeps them
pairwise distinct under any sequence of accounting events (a Start whose
generated id collides is rejected by the unique constraint and rolled back,
and Stop / Interim-Update never touch the id), and every row inserted by the
start handler carries the deterministically derived id
`session_id[:16] ++ "-" ++ str(int(now.timestamp()))`. -/
theorem c8_unique_id_invariant (db0 : List RadAcct)
    (evs : List (RadiusAccountingRequest × Int)) (req : RadiusAccountingRequest)
    (now : Int) (db' : List RadAcct) (r : RadAcct)
    (h0 : UidsDistinct db0)
    (hok : handleStart req db0 now = Except.ok db') (hr : r ∈ db') :
    UidsDistinct (runEvents evs db0) ∧
      (r ∈ db0 ∨ r.acctuniqueid = genUid req.session_id now) :=
  ⟨runEvents_uidsDistinct h0, handleStart_inserted_uid hok hr⟩

/-- Witness for C8: empty store, one concrete Start. -/
theorem c8_witness :
    UidsDistinct (runEvents [(startS1, 100)] []) ∧
      (mkStartRow startS1 0 100 0 0 ∈ ([] : List RadAcct) ∨
        (mkStartRow startS1 0 100 0 0).acctuniqueid = genUid startS1.session_id 100) :=
  c8_unique_id_invariant [] [(startS1, 100)] startS1 100
    [mkStartRow startS1 0 100 0 0] (mkStartRow startS1 0 100 0 0)
    (by decide) (by rfl) (by decide)

/-! ### C5: orphan Interim-Update / Stop events -/

theorem handleStop_orphan {req : RadiusAccountingRequest} {db : List RadAcct}
    {now : Int} (h : db.find? (openMatch req.username req.session_id) = none) :
    handleStop req db now = Except.ok db := by
  unfold handleStop
  rw [h]

theorem handleUpdate_orphan {req : RadiusAccountingRequest} {db : List RadAcct}
    {now : Int} (h : db.find? (openMatch req.username req.session_id) = none) :
    handleUpdate req db now = Except.ok db := by
  unfold handleUpdate
  rw [h]

/-- C5: an Interim-Update or Stop whose `(username, session_id)` pair has no
open record leaves every record in the store unchanged and the endpoint
acknowledges with `status: success`. -/
theorem c5_orphan_update_stop_noop (db : List RadAcct)
    (req : RadiusAccountingRequest) (now : Int)
    (hstatus : req.status_type = "Stop" ∨ req.status_type = "Interim-Update")
    (hnone : db.find? (openMatch req.username req.session_id) = none) :
    radius_accounting req db now = (db, true) := by
  have hnone' : db.find? (openMatch (clean_request_data req).username
      (clean_request_data req).session_id) = none := hnone
  rcases hstatus with h | h
  · rw [radius_accounting_stop_eq req db now h]
    rw [handleStop_orphan hnone']
  · rw [radius_accounting_update_eq req db now h]
    rw [handleUpdate_orphan hnone']

/-- Witness for C5: a Stop against the empty store is acknowledged and
changes nothing. -/
theorem c5_witness : radius_accounting stopS1 [] 300 = ([], true) :=
  c5_orphan_update_stop_noop [] stopS1 300 (Or.inl rfl) (by decide)

/-! ### Successful update/stop on a located open row -/

theorem find?_middle {p : α → Bool} {l₁ l₂ : List α} {r : α}
    (h1 : l₁.find? p = none) (hr : p r = true) :
    (l₁ ++ r :: l₂).find? p = some r := by
  rw [List.find?_append, h1, Option.none_or, List.find?_cons_of_pos _ hr]

theorem updateFirst_middle {p : α → Bool} {f : α → α} {l₁ l₂ : List α} {r : α}
    (h1 : ∀ a ∈ l₁, p a = false) (hr : p r = true) :
    updateFirst p f (l₁ ++ r :: l₂) = l₁ ++ f r :: l₂ := by
  rw [updateFirst_append_of_none _ h1, updateFirst_cons_of_pos _ hr]

theorem all_false_of_find?_eq_none {p : α → Bool} {l : List α}
    (h : l.find? p = none) : ∀ a ∈ l, p a = false := by
  intro a ha
  have := List.find?_eq_none.mp h a ha
  simpa using this

theorem handleUpdate_found {req : RadiusAccountingRequest} {db : List RadAcct}
    {now vin vout vtime : Int} {r : RadAcct}
    (hfind : db.find? (openMatch req.username req.session_id) = some r)
    (hin : intOr0 req.input_octets = Except.ok vin)
    (hout : intOr0 req.output_octets = Except.ok vout)
    (htime : intOr0 req.session_time = Except.ok vtime) :
    handleUpdate req db now =
      Except.ok (updateFirst (openMatch req.username req.session_id)
        (applyUpdateRow now vin vout vtime) db) := by
  unfold handleUpdate applyUpdateRow
  rw [hfind, hin, hout, htime]

theorem handleStop_found {req : RadiusAccountingRequest} {db : List RadAcct}
    {now vin vout vtime : Int} {r : RadAcct}
    (hfind : db.find? (openMatch req.username req.session_id) = some r)
    (htime : intOr0 req.session_time = Except.ok vtime)
    (hin : intOr0 req.input_octets = Except.ok vin)
    (hout : intOr0 req.output_octets = Except.ok vout) :
    handleStop req db now =
      Except.ok (updateFirst (openMatch req.username req.session_id)
        (applyStopRow req.terminate_cause now vtime vin vout) db) := by
  unfold handleStop applyStopRow
  rw [hfind, htime, hin, hout]

/-! ### C10: absent counters overwrite with zero -/

/-- C10: on an open row located by its `(username, session_id)` pair, a
successful Interim-Update or Stop overwrites both octet counters with the
parsed request values unconditionally — whatever the row previously held —
and a counter field that is absent (`None`) parses to `0`, erasing any
previously reported non-zero value. -/
theorem c10_absent_counters_zeroed (db1 db2 : List RadAcct) (r : RadAcct)
    (req : RadiusAccountingRequest) (now vin vout vtime : Int)
    (h1 : db1.find? (openMatch req.username req.session_id) = none)
    (hr : openMatch req.username req.session_id r = true)
    (hin : intOr0 req.input_octets = Except.ok vin)
    (hout : intOr0 req.output_octets = Except.ok vout)
    (htime : intOr0 req.session_time = Except.ok vtime) :
    (handleUpdate req (db1 ++ r :: db2) now =
        Except.ok (db1 ++ applyUpdateRow now vin vout vtime r :: db2) ∧
      (applyUpdateRow now vin vout vtime r).acctinputoctets = some vin ∧
      (applyUpdateRow now vin vout vtime r).acctoutputoctets = some vout) ∧
    (handleStop req (db1 ++ r :: db2) now =
        Except.ok (db1 ++
          applyStopRow req.terminate_cause now vtime vin vout r :: db2) ∧
      (applyStopRow req.terminate_cause now vtime vin vout r).acctinputoctets
          = some vin ∧
      (applyStopRow req.terminate_cause now vtime vin vout r).acctoutputoctets
          = some vout) ∧
    (req.input_octets = none → vin = 0) ∧
    (req.output_octets = none → vout = 0) := by
  have hfind : (db1 ++ r :: db2).find? (openMatch req.username req.session_id)
      = some r := find?_middle h1 hr
  have hall := all_false_of_find?_eq_none h1
  refine ⟨⟨?_, rfl, rfl⟩, ⟨?_, rfl, rfl⟩, ?_, ?_⟩
  · rw [handleUpdate_found hfind hin hout htime, updateFirst_middle hall hr]
  · rw [handleStop_found hfind htime hin hout, updateFirst_middle hall hr]
  · intro hn
    rw [hn] at hin
    simp [intOr0] at hin
    omega
  · intro hn
    rw [hn] at hout
    simp [intOr0] at hout
    omega

/-- Witness for C10 at a concrete store whose open row holds non-zero
counters and an update carrying no counter fields. -/
theorem c10_witness :
    (handleUpdate updS1NoCounters [rowS1Counters] 500 =
        Except.ok [applyUpdateRow 500 0 0 0 rowS1Counters] ∧
      (applyUpdateRow 500 0 0 0 rowS1Counters).acctinputoctets = some 0 ∧
      (applyUpdateRow 500 0 0 0 rowS1Counters).acctoutputoctets = some 0) ∧
    (handleStop updS1NoCounters [rowS1Counters] 500 =
        Except.ok [applyStopRow updS1NoCounters.terminate_cause 500 0 0 0
          rowS1Counters] ∧
      (applyStopRow updS1NoCounters.terminate_cause 500 0 0 0
          rowS1Counters).acctinputoctets = some 0 ∧
      (applyStopRow updS1NoCounters.terminate_cause 500 0 0 0
          rowS1Counters).acctoutputoctets = some 0) ∧
    (updS1NoCounters.input_octets = none → (0 : Int) = 0) ∧
    (updS1NoCounters.output_octets = none → (0 : Int) = 0) :=
  c10_absent_counters_zeroed [] [] rowS1Counters updS1NoCounters 500 0 0 0
    (by decide) (by decide) (by decide) (by decide) (by decide)

/-! ### C7: exposed session duration -/

/-- Counterexample to C7 as stated: `duration_seconds` follows Python
truthiness, so a stored `acctsessiontime` of `0` is NOT authoritative — the
property falls through to `stop_time - start_time` (here 120) instead of
returning the stored 0. -/
theorem c7_counterexample :
    zeroTimeRow.acctsessiontime = some 0 ∧
      duration_seconds 1000 zeroTimeRow = 120 ∧
      duration_seconds 1000 zeroTimeRow ≠ 0 := by decide

/-- C7 amended: the exposed duration equals the stored
`acctsessiontime` whenever that field is set AND non-zero; when the field is
absent or zero it is derived as `stop_time - start_time` for closed records,
`now - start_time` for open records, and `0` when `start_time` is absent. -/
theorem c7_duration_semantics (now : Int) (r : RadAcct) :
    (∀ t, r.acctsessiontime = some t → t ≠ 0 → duration_seconds now r = t) ∧
    ((r.acctsessiontime = none ∨ r.acctsessiontime = some 0) →
      (∀ st sp, r.acctstarttime = some st → r.acctstoptime = some sp →
        duration_seconds now r = sp - st) ∧
      (∀ st, r.acctstarttime = some st → r.acctstoptime = none →
        duration_seconds now r = now - st) ∧
      (r.acctstarttime = none → duration_seconds now r = 0)) := by
  constructor
  · intro t ht hne
    simp [duration_seconds, ht, hne]
  · intro h0
    refine ⟨?_, ?_, ?_⟩
    · intro st sp hst hsp
      rcases h0 with h | h <;> simp [duration_seconds, h, hst, hsp]
    · intro st hst hsp
      rcases h0 with h | h <;> simp [duration_seconds, h, hst, hsp]
    · intro hst
      rcases h0 with h | h <;> simp [duration_seconds, h, hst]

/-- Witness for C7 amended: both the active-session derivation and the
zero-field fallback at concrete rows. -/
theorem c7_witness :
    duration_seconds 1000 rowS1 = 900 ∧
      duration_seconds 1000 zeroTimeRow = 120 :=
  ⟨((c7_duration_semantics 1000 rowS1).2 (Or.inl rfl)).2.1 100 rfl rfl,
   ((c7_duration_semantics 1000 zeroTimeRow).2 (Or.inr rfl)).1 0 120 rfl rfl⟩

/-! ### C3: get_daily_bandwidth_usage raises NameError -/

/-- C3 (code bug): every call of `get_daily_bandwidth_usage` with a positive
day count raises `NameError` because the module never imports `or_`; the
documented per-day overlap aggregation is unreachable. -/
theorem c3_daily_usage_raises (db : List RadAcct) (days now : Int)
    (h : 1 ≤ days) :
    get_daily_bandwidth_usage db days now = Except.error PyErr.nameError := by
  unfold get_daily_bandwidth_usage
  rw [if_neg (by omega)]

/-- Witness for C3 at the endpoint's default `days = 30`. -/
theorem c3_witness :
    (1 : Int) ≤ 30 ∧
      get_daily_bandwidth_usage [] 30 0 = Except.error PyErr.nameError :=
  ⟨by norm_num, c3_daily_usage_raises [] 30 0 (by norm_num)⟩

/-! ### C4: userUsage window semantics -/

/-- Counterexample to C4 as stated: an open session (stop_time null) that
started before the window is NOT included — `get_user_bandwidth_usage`
filters strictly on `acctstarttime >= now - period_days`, so its 100+200
octets contribute nothing (now = 40 days, period = 30 days). -/
theorem c4_counterexample :
    staleOpenRow.acctstoptime = none ∧
      staleOpenRow.acctinputoctets = some 100 ∧
      staleOpenRow.acctoutputoctets = some 200 ∧
      get_user_bandwidth_usage [staleOpenRow] "alice" 30 3456000 =
        { download_octets := 0, upload_octets := 0, total_octets := 0,
          total_time_seconds := 0, session_count := 0 } := by decide

/-- C4 amended: `userUsage` aggregates exactly the records with
`start_time >= now - periodDays`: a record outside the window — open or not —
has no effect on any returned figure, while an in-window record of the user
adds its counters and one session to the totals. -/
theorem c4_window_filter (db1 db2 db : List RadAcct) (r r2 : RadAcct)
    (u : String) (pd now : Int)
    (hout : inPeriod (now - pd * 86400) r = false)
    (hu2 : r2.username = some u)
    (hin2 : inPeriod (now - pd * 86400) r2 = true) :
    get_user_bandwidth_usage (db1 ++ r :: db2) u pd now =
        get_user_bandwidth_usage (db1 ++ db2) u pd now ∧
      (get_user_bandwidth_usage (db ++ [r2]) u pd now).download_octets =
        (get_user_bandwidth_usage db u pd now).download_octets +
          r2.acctinputoctets.getD 0 ∧
      (get_user_bandwidth_usage (db ++ [r2]) u pd now).upload_octets =
        (get_user_bandwidth_usage db u pd now).upload_octets +
          r2.acctoutputoctets.getD 0 ∧
      (get_user_bandwidth_usage (db ++ [r2]) u pd now).session_count =
        (get_user_bandwidth_usage db u pd now).session_count + 1 := by
  refine ⟨?_, ?_, ?_, ?_⟩ <;>
    simp [get_user_bandwidth_usage, List.filter_append, List.filter_cons,
      hout, hu2, hin2]

/-- Witness for C4 amended at concrete rows (stale open row dropped, fresh
row counted). -/
theorem c4_witness :
    get_user_bandwidth_usage [staleOpenRow, freshRow] "alice" 30 3456000 =
        get_user_bandwidth_usage [freshRow] "alice" 30 3456000 ∧
      (get_user_bandwidth_usage ([freshRow] ++ [freshRow]) "alice" 30
          3456000).download_octets =
        (get_user_bandwidth_usage [freshRow] "alice" 30
          3456000).download_octets + freshRow.acctinputoctets.getD 0 ∧
      (get_user_bandwidth_usage ([freshRow] ++ [freshRow]) "alice" 30
          3456000).upload_octets =
        (get_user_bandwidth_usage [freshRow] "alice" 30
          3456000).upload_octets + freshRow.acctoutputoctets.getD 0 ∧
      (get_user_bandwidth_usage ([freshRow] ++ [freshRow]) "alice" 30
          3456000).session_count =
        (get_user_bandwidth_usage [freshRow] "alice" 30
          3456000).session_count + 1 :=
  c4_window_filter [] [freshRow] [freshRow] staleOpenRow freshRow "alice" 30
    3456000 (by decide) (by decide) (by decide)

/-! ### C6: numeric field handling at ingestion -/

/-- Counterexample to C6 as stated: a Start carrying the unparseable
`input_octets = "abc"` is not defaulted to zero and processed — `int()`
raises `ValueError`, the transaction rolls back, and the endpoint answers
`status: error` with the store unchanged (no record inserted). -/
theorem c6_counterexample :
    radius_accounting badStartS1 [] 100 = ([], false) := by decide

theorem falsy_intOr0 {x : Option String} (h : x = none ∨ x = some "") :
    intOr0 x = Except.ok 0 := by
  rcases h with h | h <;> rw [h] <;> rfl

theorem unparseable_intOr0 {x : Option String} (h : unparseableNum x) :
    intOr0 x = Except.error PyErr.valueError := by
  obtain ⟨s, hx, hs, hp⟩ := h
  rw [hx]
  simp [intOr0, hs, hp]

theorem radius_accounting_error_of_start {req : RadiusAccountingRequest}
    {db : List RadAcct} {now : Int} {e : PyErr}
    (hst : req.status_type = "Start")
    (herr : handleStart (clean_request_data req) db now = Except.error e) :
    radius_accounting req db now = (db, false) := by
  rw [radius_accounting_start_eq req db now hst, herr]

theorem radius_accounting_error_of_stop {req : RadiusAccountingRequest}
    {db : List RadAcct} {now : Int} {e : PyErr}
    (hst : req.status_type = "Stop")
    (herr : handleStop (clean_request_data req) db now = Except.error e) :
    radius_accounting req db now = (db, false) := by
  rw [radius_accounting_stop_eq req db now hst, herr]

theorem radius_accounting_error_of_update {req : RadiusAccountingRequest}
    {db : List RadAcct} {now : Int} {e : PyErr}
    (hst : req.status_type = "Interim-Update")
    (herr : handleUpdate (clean_request_data req) db now = Except.error e) :
    radius_accounting req db now = (db, false) := by
  rw [radius_accounting_update_eq req db now hst, herr]

theorem handleStart_err_input {req : RadiusAccountingRequest}
    {db : List RadAcct} {now : Int}
    (hns : (db.find? (openMatch req.username req.session_id)).isSome = false)
    (hin : intOr0 req.input_octets = Except.error PyErr.valueError) :
    handleStart req db now = Except.error PyErr.valueError := by
  unfold handleStart
  rw [hns, hin]
  simp

theorem handleStart_err_output {req : RadiusAccountingRequest}
    {db : List RadAcct} {now : Int} {v : Int}
    (hns : (db.find? (openMatch req.username req.session_id)).isSome = false)
    (hin : intOr0 req.input_octets = Except.ok v)
    (hout : intOr0 req.output_octets = Except.error PyErr.valueError) :
    handleStart req db now = Except.error PyErr.valueError := by
  unfold handleStart
  rw [hns, hin, hout]
  simp

theorem handleStop_err_time {req : RadiusAccountingRequest}
    {db : List RadAcct} {now : Int} {r : RadAcct}
    (hfind : db.find? (openMatch req.username req.session_id) = some r)
    (ht : intOr0 req.session_time = Except.error PyErr.valueError) :
    handleStop req db now = Except.error PyErr.valueError := by
  unfold handleStop
  rw [hfind, ht]

theorem handleStop_err_input {req : RadiusAccountingRequest}
    {db : List RadAcct} {now : Int} {r : RadAcct} {v : Int}
    (hfind : db.find? (openMatch req.username req.session_id) = some r)
    (ht : intOr0 req.session_time = Except.ok v)
    (hin : intOr0 req.input_octets = Except.error PyErr.valueError) :
    handleStop req db now = Except.error PyErr.valueError := by
  unfold handleStop
  rw [hfind, ht, hin]

theorem handleStop_err_output {req : RadiusAccountingRequest}
    {db : List RadAcct} {now : Int} {r : RadAcct} {v w : Int}
    (hfind : db.find? (openMatch req.username req.session_id) = some r)
    (ht : intOr0 req.session_time = Except.ok v)
    (hin : intOr0 req.input_octets = Except.ok w)
    (hout : intOr0 req.output_octets = Except.error PyErr.valueError) :
    handleStop req db now = Except.error PyErr.valueError := by
  unfold handleStop
  rw [hfind, ht, hin, hout]

theorem handleUpdate_err_input {req : RadiusAccountingRequest}
    {db : List RadAcct} {now : Int} {r : RadAcct}
    (hfind : db.find? (openMatch req.username req.session_id) = some r)
    (hin : intOr0 req.input_octets = Except.error PyErr.valueError) :
    handleUpdate req db now = Except.error PyErr.valueError := by
  unfold handleUpdate
  rw [hfind, hin]

theorem handleUpdate_err_output {req : RadiusAccountingRequest}
    {db : List RadAcct} {now : Int} {r : RadAcct} {v : Int}
    (hfind : db.find? (openMatch req.username req.session_id) = some r)
    (hin : intOr0 req.input_octets = Except.ok v)
    (hout : intOr0 req.output_octets = Except.error PyErr.valueError) :
    handleUpdate req db now = Except.error PyErr.valueError := by
  unfold handleUpdate
  rw [hfind, hin, hout]

theorem handleUpdate_err_time {req : RadiusAccountingRequest}
    {db : List RadAcct} {now : Int} {r : RadAcct} {v w : Int}
    (hfind : db.find? (openMatch req.username req.session_id) = some r)
    (hin : intOr0 req.input_octets = Except.ok v)
    (hout : intOr0 req.output_octets = Except.ok w)
    (ht : intOr0 req.session_time = Except.error PyErr.valueError) :
    handleUpdate req db now = Except.error PyErr.valueError := by
  unfold handleUpdate
  rw [hfind, hin, hout, ht]

theorem radius_accounting_stop_success {req : RadiusAccountingRequest}
    {db1 db2 : List RadAcct} {r : RadAcct} {now vtime vin vout : Int}
    (hst : req.status_type = "Stop")
    (h1 : db1.find? (openMatch req.username req.session_id) = none)
    (hr : openMatch req.username req.session_id r = true)
    (htime : intOr0 req.session_time = Except.ok vtime)
    (hin : intOr0 req.input_octets = Except.ok vin)
    (hout : intOr0 req.output_octets = Except.ok vout) :
    radius_accounting req (db1 ++ r :: db2) now =
      (db1 ++ applyStopRow (clean_request_data req).terminate_cause now vtime
        vin vout r :: db2, true) := by
  have h1' : db1.find? (openMatch (clean_request_data req).username
      (clean_request_data req).session_id) = none := h1
  have hr' : openMatch (clean_request_data req).username
      (clean_request_data req).session_id r = true := hr
  have hall' := all_false_of_find?_eq_none h1'
  have hfind' : (db1 ++ r :: db2).find?
      (openMatch (clean_request_data req).username
        (clean_request_data req).session_id) = some r := find?_middle h1' hr'
  have htime' : intOr0 (clean_request_data req).session_time =
      Except.ok vtime := htime
  have hin' : intOr0 (clean_request_data req).input_octets =
      Except.ok vin := hin
  have hout' : intOr0 (clean_request_data req).output_octets =
      Except.ok vout := hout
  rw [radius_accounting_stop_eq req _ now hst,
    handleStop_found hfind' htime' hin' hout', updateFirst_middle hall' hr']

theorem radius_accounting_update_success {req : RadiusAccountingRequest}
    {db1 db2 : List RadAcct} {r : RadAcct} {now vin vout vtime : Int}
    (hst : req.status_type = "Interim-Update")
    (h1 : db1.find? (openMatch req.username req.session_id) = none)
    (hr : openMatch req.username req.session_id r = true)
    (hin : intOr0 req.input_octets = Except.ok vin)
    (hout : intOr0 req.output_octets = Except.ok vout)
    (htime : intOr0 req.session_time = Except.ok vtime) :
    radius_accounting req (db1 ++ r :: db2) now =
      (db1 ++ applyUpdateRow now vin vout vtime r :: db2, true) := by
  have h1' : db1.find? (openMatch (clean_request_data req).username
      (clean_request_data req).session_id) = none := h1
  have hr' : openMatch (clean_request_data req).username
      (clean_request_data req).session_id r = true := hr
  have hall' := all_false_of_find?_eq_none h1'
  have hfind' : (db1 ++ r :: db2).find?
      (openMatch (clean_request_data req).username
        (clean_request_data req).session_id) = some r := find?_middle h1' hr'
  have hin' : intOr0 (clean_request_data req).input_octets =
      Except.ok vin := hin
  have hout' : intOr0 (clean_request_data req).output_octets =
      Except.ok vout := hout
  have htime' : intOr0 (clean_request_data req).session_time =
      Except.ok vtime := htime
  rw [radius_accounting_update_eq req _ now hst,
    handleUpdate_found hfind' hin' hout' htime', updateFirst_middle hall' hr']

/-- C6 amended: per field, Python `int(x or 0)` maps an absent (`None`) or
empty (`""`) numeric field to zero; an event that reaches the parsing code —
a genuine Start, or a Stop/Interim-Update matching an open record — is
processed normally with the parsed values (so absent/empty fields are stored
as zero) and acknowledged with success, while a non-empty unparseable
numeric field among those the handler parses makes `int()` raise, the
transaction roll back leaving the store unchanged, and the endpoint answer
with an error acknowledgment; events that return before parsing (a
duplicate Start, an orphan Stop/Interim-Update) are acknowledged with
success regardless of malformed numeric fields. -/
theorem c6_numeric_parsing (db : List RadAcct) (req : RadiusAccountingRequest)
    (now : Int) :
    (∀ x : Option String, x = none ∨ x = some "" → intOr0 x = Except.ok 0) ∧
    (∀ vin vout : Int, req.status_type = "Start" →
      db.find? (openMatch req.username req.session_id) = none →
      db.any (fun x => decide (x.acctuniqueid = genUid req.session_id now))
          = false →
      intOr0 req.input_octets = Except.ok vin →
      intOr0 req.output_octets = Except.ok vout →
      radius_accounting req db now =
        (db ++ [mkStartRow (clean_request_data req) db.length now vin vout],
          true)) ∧
    (req.status_type = "Start" →
      db.find? (openMatch req.username req.session_id) = none →
      (unparseableNum req.input_octets ∨
        ((∃ v, intOr0 req.input_octets = Except.ok v) ∧
          unparseableNum req.output_octets)) →
      radius_accounting req db now = (db, false)) ∧
    (∀ r : RadAcct, req.status_type = "Stop" →
      db.find? (openMatch req.username req.session_id) = some r →
      (unparseableNum req.session_time ∨
        ((∃ v, intOr0 req.session_time = Except.ok v) ∧
          unparseableNum req.input_octets) ∨
        ((∃ v, intOr0 req.session_time = Except.ok v) ∧
          (∃ w, intOr0 req.input_octets = Except.ok w) ∧
          unparseableNum req.output_octets)) →
      radius_accounting req db now = (db, false)) ∧
    (∀ r : RadAcct, req.status_type = "Interim-Update" →
      db.find? (openMatch req.username req.session_id) = some r →
      (unparseableNum req.input_octets ∨
        ((∃ v, intOr0 req.input_octets = Except.ok v) ∧
          unparseableNum req.output_octets) ∨
        ((∃ v, intOr0 req.input_octets = Except.ok v) ∧
          (∃ w, intOr0 req.output_octets = Except.ok w) ∧
          unparseableNum req.session_time)) →
      radius_accounting req db now = (db, false)) ∧
    (∀ (db1 db2 : List RadAcct) (r : RadAcct) (vtime vin vout : Int),
      req.status_type = "Stop" →
      db1.find? (openMatch req.username req.session_id) = none →
      openMatch req.username req.session_id r = true →
      intOr0 req.session_time = Except.ok vtime →
      intOr0 req.input_octets = Except.ok vin →
      intOr0 req.output_octets = Except.ok vout →
      radius_accounting req (db1 ++ r :: db2) now =
        (db1 ++ applyStopRow (clean_request_data req).terminate_cause now
          vtime vin vout r :: db2, true)) ∧
    (∀ (db1 db2 : List RadAcct) (r : RadAcct) (vin vout vtime : Int),
      req.status_type = "Interim-Update" →
      db1.find? (openMatch req.username req.session_id) = none →
      openMatch req.username req.session_id r = true →
      intOr0 req.input_octets = Except.ok vin →
      intOr0 req.output_octets = Except.ok vout →
      intOr0 req.session_time = Except.ok vtime →
      radius_accounting req (db1 ++ r :: db2) now =
        (db1 ++ applyUpdateRow now vin vout vtime r :: db2, true)) ∧
    (req.status_type = "Start" →
      (db.find? (openMatch req.username req.session_id)).isSome = true →
      radius_accounting req db now = (db, true)) ∧
    ((req.status_type = "Stop" ∨ req.status_type = "Interim-Update") →
      db.find? (openMatch req.username req.session_id) = none →
      radius_accounting req db now = (db, true)) := by
  refine ⟨?_, ?_, ?_, ?_, ?_, ?_, ?_, ?_, ?_⟩
  · intro x hx
    exact falsy_intOr0 hx
  · intro vin vout hst hno huid hin hout
    have hno' : db.find? (openMatch (clean_request_data req).username
        (clean_request_data req).session_id) = none := hno
    have hns : (db.find? (openMatch (clean_request_data req).username
        (clean_request_data req).session_id)).isSome = false := by
      rw [hno']; rfl
    have hin' : intOr0 (clean_request_data req).input_octets =
        Except.ok vin := hin
    have hout' : intOr0 (clean_request_data req).output_octets =
        Except.ok vout := hout
    have huid' : db.any (fun x => decide (x.acctuniqueid =
        genUid (clean_request_data req).session_id now)) = false := huid
    rw [radius_accounting_start_eq req db now hst]
    unfold handleStart
    rw [hns, hin', hout', huid']
    simp
  · intro hst hno hbad
    have hno' : db.find? (openMatch (clean_request_data req).username
        (clean_request_data req).session_id) = none := hno
    have hns : (db.find? (openMatch (clean_request_data req).username
        (clean_request_data req).session_id)).isSome = false := by
      rw [hno']; rfl
    rcases hbad with h | ⟨⟨v, hv⟩, h⟩
    · have hin' : intOr0 (clean_request_data req).input_octets =
          Except.error PyErr.valueError := unparseable_intOr0 h
      exact radius_accounting_error_of_start hst
        (handleStart_err_input hns hin')
    · have hv' : intOr0 (clean_request_data req).input_octets =
          Except.ok v := hv
      have hout' : intOr0 (clean_request_data req).output_octets =
          Except.error PyErr.valueError := unparseable_intOr0 h
      exact radius_accounting_error_of_start hst
        (handleStart_err_output hns hv' hout')
  · intro r hst hfind hbad
    have hfind' : db.find? (openMatch (clean_request_data req).username
        (clean_request_data req).session_id) = some r := hfind
    rcases hbad with h | ⟨⟨v, hv⟩, h⟩ | ⟨⟨v, hv⟩, ⟨w, hw⟩, h⟩
    · have ht' : intOr0 (clean_request_data req).session_time =
          Except.error PyErr.valueError := unparseable_intOr0 h
      exact radius_accounting_error_of_stop hst
        (handleStop_err_time hfind' ht')
    · have hv' : intOr0 (clean_request_data req).session_time =
          Except.ok v := hv
      have hin' : intOr0 (clean_request_data req).input_octets =
          Except.error PyErr.valueError := unparseable_intOr0 h
      exact radius_accounting_error_of_stop hst
        (handleStop_err_input hfind' hv' hin')
    · have hv' : intOr0 (clean_request_data req).session_time =
          Except.ok v := hv
      have hw' : intOr0 (clean_request_data req).input_octets =
          Except.ok w := hw
      have hout' : intOr0 (clean_request_data req).output_octets =
          Except.error PyErr.valueError := unparseable_intOr0 h
      exact radius_accounting_error_of_stop hst
        (handleStop_err_output hfind' hv' hw' hout')
  · intro r hst hfind hbad
    have hfind' : db.find? (openMatch (clean_request_data req).username
        (clean_request_data req).session_id) = some r := hfind
    rcases hbad with h | ⟨⟨v, hv⟩, h⟩ | ⟨⟨v, hv⟩, ⟨w, hw⟩, h⟩
    · have hin' : intOr0 (clean_request_data req).input_octets =
          Except.error PyErr.valueError := unparseable_intOr0 h
      exact radius_accounting_error_of_update hst
        (handleUpdate_err_input hfind' hin')
    · have hv' : intOr0 (clean_request_data req).input_octets =
          Except.ok v := hv
      have hout' : intOr0 (clean_request_data req).output_octets =
          Except.error PyErr.valueError := unparseable_intOr0 h
      exact radius_accounting_error_of_update hst
        (handleUpdate_err_output hfind' hv' hout')
    · have hv' : intOr0 (clean_request_data req).input_octets =
          Except.ok v := hv
      have hw' : intOr0 (clean_request_data req).output_octets =
          Except.ok w := hw
      have ht' : intOr0 (clean_request_data req).session_time =
          Except.error PyErr.valueError := unparseable_intOr0 h
      exact radius_accounting_error_of_update hst
        (handleUpdate_err_time hfind' hv' hw' ht')
  · intro db1 db2 r vtime vin vout hst h1 hr ht hin hout
    exact radius_accounting_stop_success hst h1 hr ht hin hout
  · intro db1 db2 r vin vout vtime hst h1 hr hin hout ht
    exact radius_accounting_update_success hst h1 hr hin hout ht
  · intro hst hdup
    exact start_duplicate_noop hst hdup
  · intro hss hnone
    have hnone' : db.find? (openMatch (clean_request_data req).username
        (clean_request_data req).session_id) = none := hnone
    rcases hss with h | h
    · rw [radius_accounting_stop_eq req db now h, handleStop_orphan hnone']
    · rw [radius_accounting_update_eq req db now h, handleUpdate_orphan hnone']

/-- Witness for C6 amended at concrete events: absent counters default to
zero on a genuine Start; unparseable fields are rejected with the store
unchanged for Start, Stop and Interim-Update; a well-formed Stop and
Interim-Update on an open row are processed normally; a duplicate Start and
an orphan Stop with malformed fields are still acknowledged. -/
theorem c6_witness :
    intOr0 none = Except.ok 0 ∧
    radius_accounting startS1None [] 100 =
      ([mkStartRow (clean_request_data startS1None) 0 100 0 0], true) ∧
    radius_accounting badStartS1 [] 100 = ([], false) ∧
    radius_accounting badStopS1 [rowS1] 300 = ([rowS1], false) ∧
    radius_accounting badUpdS1 [rowS1] 300 = ([rowS1], false) ∧
    radius_accounting stopS1 [rowS1] 300 =
      ([applyStopRow (clean_request_data stopS1).terminate_cause 300 120 5000
        9000 rowS1], true) ∧
    radius_accounting updS1 [rowS1] 300 =
      ([applyUpdateRow 300 1000 2000 60 rowS1], true) ∧
    radius_accounting badStartS1 [rowS1] 300 = ([rowS1], true) ∧
    radius_accounting badStopS1 [] 300 = ([], true) :=
  ⟨(c6_numeric_parsing [] startS1None 100).1 none (Or.inl rfl),
   (c6_numeric_parsing [] startS1None 100).2.1 0 0 rfl (by decide)
     (by decide) (by decide) (by decide),
   (c6_numeric_parsing [] badStartS1 100).2.2.1 rfl (by decide)
     (Or.inl ⟨"abc", rfl, by decide, by decide⟩),
   (c6_numeric_parsing [rowS1] badStopS1 300).2.2.2.1 rowS1 rfl (by decide)
     (Or.inl ⟨"xyz", rfl, by decide, by decide⟩),
   (c6_numeric_parsing [rowS1] badUpdS1 300).2.2.2.2.1 rowS1 rfl (by decide)
     (Or.inl ⟨"abc", rfl, by decide, by decide⟩),
   (c6_numeric_parsing [rowS1] stopS1 300).2.2.2.2.2.1 [] [] rowS1 120 5000
     9000 rfl (by decide) (by decide) (by decide) (by decide) (by decide),
   (c6_numeric_parsing [rowS1] updS1 300).2.2.2.2.2.2.1 [] [] rowS1 1000
     2000 60 rfl (by decide) (by decide) (by decide) (by decide) (by decide),
   (c6_numeric_parsing [rowS1] badStartS1 300).2.2.2.2.2.2.2.1 rfl
     (by decide),
   (c6_numeric_parsing [] badStopS1 300).2.2.2.2.2.2.2.2 (Or.inl rfl)
     (by decide)⟩

/-! ### C2: Start → Interim-Update* → Stop lifecycle -/

theorem runEvents_cons (req : RadiusAccountingRequest) (t : Int)
    (evs : List (RadiusAccountingRequest × Int)) (db : List RadAcct) :
    runEvents ((req, t) :: evs) db =
      runEvents evs (radius_accounting req db t).1 := rfl

theorem runEvents_singleton (req : RadiusAccountingRequest) (t : Int)
    (db : List RadAcct) :
    runEvents [(req, t)] db = (radius_accounting req db t).1 := rfl

theorem runEvents_append (l₁ l₂ : List (RadiusAccountingRequest × Int))
    (db : List RadAcct) :
    runEvents (l₁ ++ l₂) db = runEvents l₂ (runEvents l₁ db) :=
  List.foldl_append _ _ _ _

theorem openMatch_applyUpdateRow (u sid : String) (now vin vout vtime : Int)
    (r : RadAcct) :
    openMatch u sid (applyUpdateRow now vin vout vtime r) =
      openMatch u sid r := rfl

theorem update_step_shape {u sid : String} {db0 : List RadAcct}
    (h0 : db0.find? (openMatch u sid) = none) {r : RadAcct}
    (hr : openMatch u sid r = true) (req : RadiusAccountingRequest) (t : Int)
    (hreq : req.status_type = "Interim-Update" ∧ req.username = u ∧
      req.session_id = sid) :
    ∃ r', (radius_accounting req (db0 ++ [r]) t).1 = db0 ++ [r'] ∧
      openMatch u sid r' = true := by
  obtain ⟨hst, hu, hsid⟩ := hreq
  have h0' : db0.find? (openMatch (clean_request_data req).username
      (clean_request_data req).session_id) = none := by
    rw [clean_request_data_username, clean_request_data_session_id, hu, hsid]
    exact h0
  have hr' : openMatch (clean_request_data req).username
      (clean_request_data req).session_id r = true := by
    rw [clean_request_data_username, clean_request_data_session_id, hu, hsid]
    exact hr
  have hall' := all_false_of_find?_eq_none h0'
  have hfind' : (db0 ++ [r]).find? (openMatch (clean_request_data req).username
      (clean_request_data req).session_id) = some r := find?_middle h0' hr'
  rw [radius_accounting_update_eq req _ t hst]
  cases hin : intOr0 req.input_octets with
  | error e =>
      have herr : handleUpdate (clean_request_data req) (db0 ++ [r]) t =
          Except.error e := by
        unfold handleUpdate
        rw [hfind', clean_request_data_input_octets, hin]
      rw [herr]
      exact ⟨r, rfl, hr⟩
  | ok vin =>
      have hin' : intOr0 (clean_request_data req).input_octets =
          Except.ok vin := hin
      cases hout : intOr0 req.output_octets with
      | error e =>
          have herr : handleUpdate (clean_request_data req) (db0 ++ [r]) t =
              Except.error e := by
            unfold handleUpdate
            rw [hfind', hin', clean_request_data_output_octets, hout]
          rw [herr]
          exact ⟨r, rfl, hr⟩
      | ok vout =>
          have hout' : intOr0 (clean_request_data req).output_octets =
              Except.ok vout := hout
          cases htime : intOr0 req.session_time with
          | error e =>
              have herr : handleUpdate (clean_request_data req) (db0 ++ [r]) t =
                  Except.error e := by
                unfold handleUpdate
                rw [hfind', hin', hout', clean_request_data_session_time, htime]
              rw [herr]
              exact ⟨r, rfl, hr⟩
          | ok vtime =>
              have htime' : intOr0 (clean_request_data req).session_time =
                  Except.ok vtime := htime
              rw [handleUpdate_found hfind' hin' hout' htime']
              rw [updateFirst_middle hall' hr']
              exact ⟨applyUpdateRow t vin vout vtime r, rfl,
                by rw [openMatch_applyUpdateRow]; exact hr⟩

theorem runUpdates_single_open {u sid : String} {db0 : List RadAcct}
    (h0 : db0.find? (openMatch u sid) = none)
    (upds : List (RadiusAccountingRequest × Int))
    (hupds : ∀ e ∈ upds, e.1.status_type = "Interim-Update" ∧
      e.1.username = u ∧ e.1.session_id = sid)
    (r : RadAcct) (hr : openMatch u sid r = true) :
    ∃ r', runEvents upds (db0 ++ [r]) = db0 ++ [r'] ∧
      openMatch u sid r' = true := by
  induction upds generalizing r with
  | nil => exact ⟨r, rfl, hr⟩
  | cons e t ih =>
      obtain ⟨r1, hstep, hr1⟩ := update_step_shape h0 hr e.1 e.2
        (hupds e (List.mem_cons_self e t))
      have hcons : runEvents (e :: t) (db0 ++ [r]) =
          runEvents t (radius_accounting e.1 (db0 ++ [r]) e.2).1 := rfl
      rw [hcons, hstep]
      exact ih (fun x hx => hupds x (List.mem_cons_of_mem e hx)) r1 hr1

theorem start_insert_shape {u sid : String} {db0 : List RadAcct}
    {t0 vin0 vout0 : Int} (startReq : RadiusAccountingRequest)
    (h0 : db0.find? (openMatch u sid) = none)
    (hstart : startReq.status_type = "Start" ∧ startReq.username = u ∧
      startReq.session_id = sid)
    (hin0 : intOr0 startReq.input_octets = Except.ok vin0)
    (hout0 : intOr0 startReq.output_octets = Except.ok vout0)
    (huid : db0.any (fun x => decide (x.acctuniqueid = genUid sid t0))
        = false) :
    (radius_accounting startReq db0 t0).1 =
      db0 ++ [mkStartRow (clean_request_data startReq) db0.length t0
        vin0 vout0] ∧
    openMatch u sid (mkStartRow (clean_request_data startReq) db0.length t0
      vin0 vout0) = true := by
  obtain ⟨hst, hu, hsid⟩ := hstart
  have h0' : db0.find? (openMatch (clean_request_data startReq).username
      (clean_request_data startReq).session_id) = none := by
    rw [clean_request_data_username, clean_request_data_session_id, hu, hsid]
    exact h0
  have hns : (db0.find? (openMatch (clean_request_data startReq).username
      (clean_request_data startReq).session_id)).isSome = false := by
    rw [h0']; rfl
  have hin0' : intOr0 (clean_request_data startReq).input_octets =
      Except.ok vin0 := hin0
  have hout0' : intOr0 (clean_request_data startReq).output_octets =
      Except.ok vout0 := hout0
  have huid' : db0.any (fun x => decide (x.acctuniqueid =
      genUid (clean_request_data startReq).session_id t0)) = false := by
    rw [clean_request_data_session_id, hsid]
    exact huid
  constructor
  · rw [radius_accounting_start_eq startReq db0 t0 hst]
    unfold handleStart
    rw [hns, hin0', hout0', huid']
    simp
  · simp [openMatch, mkStartRow, clean_request_data_username,
      clean_request_data_session_id, hu, hsid]

theorem stop_step_close {u sid : String} {db0 : List RadAcct} {r : RadAcct}
    {tstop vin vout vtime : Int} (stopReq : RadiusAccountingRequest)
    (h0 : db0.find? (openMatch u sid) = none)
    (hr : openMatch u sid r = true)
    (hstop : stopReq.status_type = "Stop" ∧ stopReq.username = u ∧
      stopReq.session_id = sid)
    (htime : intOr0 stopReq.session_time = Except.ok vtime)
    (hin : intOr0 stopReq.input_octets = Except.ok vin)
    (hout : intOr0 stopReq.output_octets = Except.ok vout) :
    (radius_accounting stopReq (db0 ++ [r]) tstop).1 =
      db0 ++ [applyStopRow (clean_request_data stopReq).terminate_cause
        tstop vtime vin vout r] := by
  obtain ⟨hst, hu, hsid⟩ := hstop
  have h0' : db0.find? (openMatch (clean_request_data stopReq).username
      (clean_request_data stopReq).session_id) = none := by
    rw [clean_request_data_username, clean_request_data_session_id, hu, hsid]
    exact h0
  have hr' : openMatch (clean_request_data stopReq).username
      (clean_request_data stopReq).session_id r = true := by
    rw [clean_request_data_username, clean_request_data_session_id, hu, hsid]
    exact hr
  have hall' := all_false_of_find?_eq_none h0'
  have hfind' : (db0 ++ [r]).find?
      (openMatch (clean_request_data stopReq).username
        (clean_request_data stopReq).session_id) = some r :=
    find?_middle h0' hr'
  have htime' : intOr0 (clean_request_data stopReq).session_time =
      Except.ok vtime := htime
  have hin' : intOr0 (clean_request_data stopReq).input_octets =
      Except.ok vin := hin
  have hout' : intOr0 (clean_request_data stopReq).output_octets =
      Except.ok vout := hout
  rw [radius_accounting_stop_eq stopReq _ tstop hst]
  rw [handleStop_found hfind' htime' hin' hout']
  rw [updateFirst_middle hall' hr']

/-- C2: for any `(username, session_id)` pair with no open record in the
store, a Start followed by any number of Interim-Updates for the pair and a
final Stop leaves exactly one new record, whose `acctstoptime` is set (the
Stop instant), whose octet counters equal the values reported by the last
event (the Stop), and whose stored session duration (`acctsessiontime`)
equals the Stop-reported `session_time`.  Parse hypotheses state that the
Start and Stop numeric fields are well-formed, and the freshness hypothesis
that the generated unique id does not collide. -/
theorem c2_lifecycle_final_record (db0 : List RadAcct) (u sid : String)
    (startReq stopReq : RadiusAccountingRequest)
    (upds : List (RadiusAccountingRequest × Int))
    (t0 tstop vin0 vout0 vin vout vtime : Int)
    (h0 : db0.find? (openMatch u sid) = none)
    (hstart : startReq.status_type = "Start" ∧ startReq.username = u ∧
      startReq.session_id = sid)
    (hin0 : intOr0 startReq.input_octets = Except.ok vin0)
    (hout0 : intOr0 startReq.output_octets = Except.ok vout0)
    (huid : db0.any (fun x => decide (x.acctuniqueid = genUid sid t0))
        = false)
    (hupds : ∀ e ∈ upds, e.1.status_type = "Interim-Update" ∧
      e.1.username = u ∧ e.1.session_id = sid)
    (hstop : stopReq.status_type = "Stop" ∧ stopReq.username = u ∧
      stopReq.session_id = sid)
    (htime : intOr0 stopReq.session_time = Except.ok vtime)
    (hin : intOr0 stopReq.input_octets = Except.ok vin)
    (hout : intOr0 stopReq.output_octets = Except.ok vout) :
    ∃ rf, runEvents ((startReq, t0) :: (upds ++ [(stopReq, tstop)])) db0 =
        db0 ++ [rf] ∧
      rf.acctstoptime = some tstop ∧
      rf.acctinputoctets = some vin ∧
      rf.acctoutputoctets = some vout ∧
      rf.acctsessiontime = some vtime := by
  obtain ⟨hstartdb, hopen0⟩ := start_insert_shape startReq h0 hstart hin0
    hout0 huid
  rw [runEvents_cons, hstartdb, runEvents_append]
  obtain ⟨r1, hupdsdb, hr1⟩ := runUpdates_single_open h0 upds hupds _ hopen0
  rw [hupdsdb, runEvents_singleton]
  rw [stop_step_close stopReq h0 hr1 hstop htime hin hout]
  exact ⟨applyStopRow (clean_request_data stopReq).terminate_cause tstop
    vtime vin vout r1, rfl, rfl, rfl, rfl, rfl⟩

/-- Witness for C2: the spec's scenario — Start, one Interim-Update
(1000/2000), Stop (5000/9000, 120 s) — leaves one closed record carrying the
Stop-reported values. -/
theorem c2_witness :
    ∃ rf, runEvents ((startS1, 100) :: ([(updS1, 160)] ++ [(stopS1, 220)]))
        [] = [] ++ [rf] ∧
      rf.acctstoptime = some 220 ∧
      rf.acctinputoctets = some 5000 ∧
      rf.acctoutputoctets = some 9000 ∧
      rf.acctsessiontime = some 120 :=
  c2_lifecycle_final_record [] "alice" "S1" startS1 stopS1 [(updS1, 160)]
    100 220 0 0 5000 9000 120 (by decide) ⟨rfl, rfl, rfl⟩ (by decide)
    (by decide) (by decide) (by decide) ⟨rfl, rfl, rfl⟩ (by decide)
    (by decide) (by decide)

/-! ### C9: global totals versus per-user totals -/

theorem user_usage_download (db : List RadAcct) (u : String) (pd now : Int) :
    (get_user_bandwidth_usage db u pd now).download_octets =
      ((db.filter (fun r => decide (r.username = some u) &&
          inPeriod (now - pd * 86400) r)).map
        (fun s => s.acctinputoctets.getD 0)).sum := rfl

theorem user_usage_upload (db : List RadAcct) (u : String) (pd now : Int) :
    (get_user_bandwidth_usage db u pd now).upload_octets =
      ((db.filter (fun r => decide (r.username = some u) &&
          inPeriod (now - pd * 86400) r)).map
        (fun s => s.acctoutputoctets.getD 0)).sum := rfl

theorem global_usage_download (db : List RadAcct) (rc : List String)
    (pd now : Int) :
    (get_global_bandwidth_usage db rc pd now).download_octets =
      ((db.filter (inPeriod (now - pd * 86400))).map
        (fun s => s.acctinputoctets.getD 0)).sum := rfl

theorem global_usage_upload (db : List RadAcct) (rc : List String)
    (pd now : Int) :
    (get_global_bandwidth_usage db rc pd now).upload_octets =
      ((db.filter (inPeriod (now - pd * 86400))).map
        (fun s => s.acctoutputoctets.getD 0)).sum := rfl

theorem sum_map_ite_zero {us : List String} {u0 : String} {x : Int}
    (h : u0 ∉ us) :
    (us.map (fun u => if u0 = u then x else 0)).sum = 0 := by
  induction us with
  | nil => rfl
  | cons a t ih =>
      have ha : u0 ≠ a := fun he => h (he ▸ List.mem_cons_self a t)
      have ht : u0 ∉ t := fun he => h (List.mem_cons_of_mem a he)
      simp [ha, ih ht]

theorem sum_map_ite_eq {us : List String} (u0 : String) (x : Int)
    (hnd : us.Nodup) (hm : u0 ∈ us) :
    (us.map (fun u => if u0 = u then x else 0)).sum = x := by
  induction us with
  | nil => cases hm
  | cons a t ih =>
      rcases List.mem_cons.mp hm with he | ht
      · subst he
        have hnotin : u0 ∉ t := (List.nodup_cons.mp hnd).1
        simp [sum_map_ite_zero hnotin]
      · have ha : u0 ≠ a := by
          intro he
          exact (List.nodup_cons.mp hnd).1 (he ▸ ht)
        simp [ha, ih (List.nodup_cons.mp hnd).2 ht]

theorem sum_partition (g : RadAcct → Int) (l : List RadAcct)
    (us : List String) (hnd : us.Nodup)
    (hcov : ∀ r ∈ l, ∃ u ∈ us, r.username = some u) :
    (us.map (fun u =>
      ((l.filter (fun x => decide (x.username = some u))).map g).sum)).sum
      = (l.map g).sum := by
  induction l with
  | nil => simp
  | cons r t ih =>
      obtain ⟨u0, hu0mem, hu0⟩ := hcov r (List.mem_cons_self r t)
      have hstep : ∀ u ∈ us,
          (((r :: t).filter (fun x => decide (x.username = some u))).map
            g).sum =
          (if u0 = u then g r else 0) +
            ((t.filter (fun x => decide (x.username = some u))).map g).sum := by
        intro u _
        rw [List.filter_cons]
        by_cases h : u0 = u
        · subst h
          simp [hu0]
        · simp [hu0, h]
      rw [List.map_congr_left hstep, List.sum_map_add,
        sum_map_ite_eq u0 (g r) hnd hu0mem,
        ih (fun x hx => hcov x (List.mem_cons_of_mem r hx))]
      simp

/-- Counterexample to C9 as stated: with a `NULL`-username row in the period
the global total counts its 12 octets but no per-user total does — the sum
over all distinct usernames with sessions in the period is 0. -/
theorem c9_counterexample :
    (get_global_bandwidth_usage [nullUserRow] [] 30 3456000).total_octets
        = 12 ∧
      distinctUsersInPeriod [nullUserRow] 30 3456000 = [] ∧
      ((distinctUsersInPeriod [nullUserRow] 30 3456000).map
        (fun u =>
          (get_user_bandwidth_usage [nullUserRow] u 30 3456000).total_octets)
        ).sum = 0 := by decide

/-- C9 amended: whenever every record inside the period carries a non-null
username, the global byte totals equal the sum of the per-user byte totals
over the distinct usernames having sessions in the period. -/
theorem c9_global_eq_sum_user (db : List RadAcct) (rc : List String)
    (pd now : Int)
    (h : ∀ r ∈ db, inPeriod (now - pd * 86400) r = true →
      r.username ≠ none) :
    (get_global_bandwidth_usage db rc pd now).download_octets =
        ((distinctUsersInPeriod db pd now).map
          (fun u => (get_user_bandwidth_usage db u pd now).download_octets)
          ).sum ∧
      (get_global_bandwidth_usage db rc pd now).upload_octets =
        ((distinctUsersInPeriod db pd now).map
          (fun u => (get_user_bandwidth_usage db u pd now).upload_octets)
          ).sum ∧
      (get_global_bandwidth_usage db rc pd now).total_octets =
        ((distinctUsersInPeriod db pd now).map
          (fun u => (get_user_bandwidth_usage db u pd now).total_octets)
          ).sum := by
  have hfilter : ∀ u : String,
      db.filter (fun r => decide (r.username = some u) &&
        inPeriod (now - pd * 86400) r) =
      (db.filter (inPeriod (now - pd * 86400))).filter
        (fun x => decide (x.username = some u)) := by
    intro u
    rw [List.filter_filter]
  have hnd : (distinctUsersInPeriod db pd now).Nodup := List.nodup_dedup _
  have hcov : ∀ r ∈ db.filter (inPeriod (now - pd * 86400)),
      ∃ u ∈ distinctUsersInPeriod db pd now, r.username = some u := by
    intro r hr
    have h1 := List.mem_of_mem_filter hr
    have h2 := List.of_mem_filter hr
    have h3 := h r h1 h2
    cases hu : r.username with
    | none => exact absurd hu h3
    | some u =>
        exact ⟨u, List.mem_dedup.mpr (List.mem_filterMap.mpr ⟨r, hr, hu⟩), rfl⟩
  have hdl : (get_global_bandwidth_usage db rc pd now).download_octets =
      ((distinctUsersInPeriod db pd now).map
        (fun u => (get_user_bandwidth_usage db u pd now).download_octets)
        ).sum := by
    rw [global_usage_download,
      ← sum_partition (fun s => s.acctinputoctets.getD 0)
        (db.filter (inPeriod (now - pd * 86400)))
        (distinctUsersInPeriod db pd now) hnd hcov]
    exact congrArg List.sum (List.map_congr_left
      (fun u _ => by rw [user_usage_download, hfilter u])).symm
  have hul : (get_global_bandwidth_usage db rc pd now).upload_octets =
      ((distinctUsersInPeriod db pd now).map
        (fun u => (get_user_bandwidth_usage db u pd now).upload_octets)
        ).sum := by
    rw [global_usage_upload,
      ← sum_partition (fun s => s.acctoutputoctets.getD 0)
        (db.filter (inPeriod (now - pd * 86400)))
        (distinctUsersInPeriod db pd now) hnd hcov]
    exact congrArg List.sum (List.map_congr_left
      (fun u _ => by rw [user_usage_upload, hfilter u])).symm
  refine ⟨hdl, hul, ?_⟩
  have htot : ((distinctUsersInPeriod db pd now).map
      (fun u => (get_user_bandwidth_usage db u pd now).total_octets)).sum =
      ((distinctUsersInPeriod db pd now).map
        (fun u => (get_user_bandwidth_usage db u pd now).download_octets)
        ).sum +
      ((distinctUsersInPeriod db pd now).map
        (fun u => (get_user_bandwidth_usage db u pd now).upload_octets)
        ).sum := by
    rw [← List.sum_map_add]
    exact congrArg List.sum (List.map_congr_left (fun u _ => rfl))
  rw [htot, ← hdl, ← hul]
  rfl

/-- Witness for C9 amended at a one-row store whose record belongs to
alice. -/
theorem c9_witness :
    (get_global_bandwidth_usage [freshRow] [] 30 3456000).download_octets =
        ((distinctUsersInPeriod [freshRow] 30 3456000).map
          (fun u =>
            (get_user_bandwidth_usage [freshRow] u 30 3456000).download_octets)
          ).sum ∧
      (get_global_bandwidth_usage [freshRow] [] 30 3456000).upload_octets =
        ((distinctUsersInPeriod [freshRow] 30 3456000).map
          (fun u =>
            (get_user_bandwidth_usage [freshRow] u 30 3456000).upload_octets)
          ).sum ∧
      (get_global_bandwidth_usage [freshRow] [] 30 3456000).total_octets =
        ((distinctUsersInPeriod [freshRow] 30 3456000).map
          (fun u =>
            (get_user_bandwidth_usage [freshRow] u 30 3456000).total_octets)
          ).sum :=
  c9_global_eq_sum_user [freshRow] [] 30 3456000 (by decide)
